import Mathlib

/-!
Shallow embedding of the OTProtocolCC minimal Central Control (CC1) protocol
support library: the CRC7 checksum engine, the three message variants
(`CC1Alert`, `CC1PollAndCommand`, `CC1PollResponse`) with their factory,
encode and decode operations, and the validity predicates.

Byte buffers are modelled as total functions `Nat → Nat` holding byte values;
machine `uint8_t` arithmetic is made explicit with `% 256` (and `% 128` for
the 7-bit CRC) exactly where the C code truncates.  Encoding returns the
updated buffer together with the byte count written (0 on failure); decoding
returns the updated instance together with the byte count read (0 on failure),
mirroring the in-place mutation of the C code by explicit state passing.
-/

set_option maxRecDepth 8000

namespace OTProtocolCC

/-- Frame type byte for CC1 alert frames: the character `'!'` (0x21). -/
def FTp2_CC1Alert : Nat := 0x21

/-- Frame type byte for CC1 poll-and-command frames: the character `'?'` (0x3f). -/
def FTp2_CC1PollAndCmd : Nat := 0x3f

/-- Frame type byte for CC1 poll-response frames: the character `'*'` (0x2a). -/
def FTp2_CC1PollResponse : Nat := 0x2a

/-- Modelled from the spec: one bit-step of `OTRadioLink::crc7_5B_update`,
whose source lives in the external OTRadioLink library and is not part of
this repository.  The spec fixes the engine as a 7-bit CRC with the Koopman
0x5B polynomial (normal form 0x37), seeded with the first byte, no final
inversion; each step xors the incoming data bit with bit 6 of the running
register, shifts the 8-bit register left, and xors in 0x37 when the combined
bit is set.  This model reproduces all the spec's checksum fixtures. -/
def crc7_5B_step (crc : Nat) (bit : Bool) : Nat :=
  let b := bit != crc.testBit 6
  let c := (crc * 2) % 256
  if b then Nat.xor c 0x37 else c

/-- Modelled from the spec: `OTRadioLink::crc7_5B_update`, folding the eight
bits of `datum` (most significant first) into the running CRC and masking the
result to 7 bits, as the external library does with `crc & 0x7f`. -/
def crc7_5B_update (crc datum : Nat) : Nat :=
  (crc7_5B_step (crc7_5B_step (crc7_5B_step (crc7_5B_step (crc7_5B_step
    (crc7_5B_step (crc7_5B_step (crc7_5B_step crc (datum.testBit 7))
    (datum.testBit 6)) (datum.testBit 5)) (datum.testBit 4)) (datum.testBit 3))
    (datum.testBit 2)) (datum.testBit 1)) (datum.testBit 0)) % 128

/-- Modelled from the spec: `OTRadioLink::crc7_5B_update_nz_ALT`, the fixed
alternate non-zero constant substituted when the folded CRC comes out zero,
preserving the "checksum byte is never 0x00" wire invariant.  The constant's
exact value is defined in the external OTRadioLink library; what the spec
(and every claim) relies on is only that it is a fixed non-zero byte. -/
def crc7_5B_update_nz_ALT : Nat := 0x80

/-- Arduino `constrain(x, lo, hi)`: clamp `x` into the closed range `[lo, hi]`. -/
def constrain (x lo hi : Nat) : Nat :=
  if x < lo then lo else if hi < x then hi else x

/-- Pointwise functional update of a byte buffer: `setB buf i v` is the buffer
equal to `buf` everywhere except at index `i`, where it holds `v`.  This models
the C assignment `buf[i] = v`. -/
def setB (buf : Nat → Nat) (i v : Nat) : Nat → Nat :=
  fun j => if j = i then v else buf j

/-- `CC1Base::encodeSimpleArgsSane` (null-pointer check dropped: buffers are
total functions in this model): the buffer must hold at least 7 bytes, or 8
when the trailing CRC is requested. -/
def encodeSimpleArgsSane (buflen : Nat) (includeCRC : Bool) : Bool :=
  decide ((if includeCRC then 8 else 7) ≤ buflen)

/-- `CC1Base::decodeSimpleArgsSane` (null-pointer check dropped): the buffer
must hold at least 7 bytes, or 8 when the trailing CRC is expected. -/
def decodeSimpleArgsSane (buflen : Nat) (includeCRC : Bool) : Bool :=
  decide ((if includeCRC then 8 else 7) ≤ buflen)

/-- `CC1Base::computeSimpleCRC`: fails (0) if the buffer is shorter than the
fixed 7-byte message length or its first byte is zero; otherwise folds
`crc7_5B_update` over bytes 1..6 seeded with byte 0 (the loop
`for(i = 1; i < 7; ++i)` unrolled), substituting the fixed alternate
non-zero constant for a zero result. -/
def computeSimpleCRC (buf : Nat → Nat) (buflen : Nat) : Nat :=
  if buflen < 7 then 0
  else if buf 0 = 0 then 0
  else
    let crc :=
      crc7_5B_update (crc7_5B_update (crc7_5B_update (crc7_5B_update
        (crc7_5B_update (crc7_5B_update (buf 0) (buf 1)) (buf 2)) (buf 3))
        (buf 4)) (buf 5)) (buf 6)
    if crc = 0 then crc7_5B_update_nz_ALT else crc

/-- `CC1Alert`: house code only; the four extension bytes are reserved with
fixed wire value 1.  `hc1 = 0xff` (or `hc2 = 0xff`) marks an invalid instance. -/
structure CC1Alert where
  hc1 : Nat
  hc2 : Nat

/-- `CC1PollAndCommand`: house code, rad-open-percent `rp` [0,100],
light-colour `lc` [0,3], light-on-time `lt` [1,15], light-flash `lf` [1,3]. -/
structure CC1PollAndCommand where
  hc1 : Nat
  hc2 : Nat
  rp : Nat
  lc : Nat
  lt : Nat
  lf : Nat

/-- `CC1PollResponse`: house code, relative-humidity `rh` [0,50], pipe
temperature `tp` [0,199], room temperature `tr` [0,199], ambient light `al`
[1,62], and the window / switch / syncing flags. -/
structure CC1PollResponse where
  hc1 : Nat
  hc2 : Nat
  rh : Nat
  tp : Nat
  tr : Nat
  al : Nat
  w : Bool
  s : Bool
  sy : Bool

/-- `CC1Base::houseCodeIsValid` for alerts: neither house-code byte is 0xff. -/
def CC1Alert.houseCodeIsValid (a : CC1Alert) : Bool :=
  (a.hc1 != 0xff) && (a.hc2 != 0xff)

/-- `CC1Base::isValid` for alerts (not overridden): house-code validity. -/
def CC1Alert.isValid (a : CC1Alert) : Bool := a.houseCodeIsValid

/-- `CC1Base::houseCodeIsValid` for poll-and-command instances. -/
def CC1PollAndCommand.houseCodeIsValid (p : CC1PollAndCommand) : Bool :=
  (p.hc1 != 0xff) && (p.hc2 != 0xff)

/-- `CC1Base::isValid` for poll-and-command instances (not overridden). -/
def CC1PollAndCommand.isValid (p : CC1PollAndCommand) : Bool := p.houseCodeIsValid

/-- `CC1Base::houseCodeIsValid` for poll-response instances. -/
def CC1PollResponse.houseCodeIsValid (p : CC1PollResponse) : Bool :=
  (p.hc1 != 0xff) && (p.hc2 != 0xff)

/-- `CC1Base::isValid` for poll-response instances (not overridden). -/
def CC1PollResponse.isValid (p : CC1PollResponse) : Bool := p.houseCodeIsValid

/-- `CC1Alert::make`: factory, just stores the two house-code bytes. -/
def CC1Alert.make (hc1 hc2 : Nat) : CC1Alert := ⟨hc1, hc2⟩

/-- `CC1PollAndCommand::make`: factory clamping every field into range:
`rp` to [0,100] by `constrain`, `lc` masked to its 2 bits, `lt` to [1,15],
`lf` to [1,3]. -/
def CC1PollAndCommand.make (hc1 hc2 rp lc lt lf : Nat) : CC1PollAndCommand :=
  { hc1 := hc1
    hc2 := hc2
    rp := constrain rp 0 100
    lc := Nat.land lc 3
    lt := constrain lt 1 15
    lf := constrain lf 1 3 }

/-- `CC1PollResponse::make`: factory clamping every field into range:
`rh` to [0,50], `tp` and `tr` to [0,199], `al` to [1,62]; flags stored as-is. -/
def CC1PollResponse.make (hc1 hc2 rh tp tr al : Nat) (s w sy : Bool) :
    CC1PollResponse :=
  { hc1 := hc1
    hc2 := hc2
    rh := constrain rh 0 50
    tp := constrain tp 0 199
    tr := constrain tr 0 199
    al := constrain al 1 62
    s := s
    w := w
    sy := sy }

/-- `CC1Alert::encodeSimple`: writes `'!' hc1 hc2 1 1 1 1` and, when
`includeCRC`, the non-zero CRC over the just-written bytes 0..6; returns the
updated buffer with the byte count written, or the untouched buffer with 0
when the buffer is too short. -/
def CC1Alert.encodeSimple (a : CC1Alert) (buf : Nat → Nat) (buflen : Nat)
    (includeCRC : Bool) : (Nat → Nat) × Nat :=
  if !encodeSimpleArgsSane buflen includeCRC then (buf, 0)
  else
    let b := setB (setB (setB (setB (setB (setB (setB buf
      0 FTp2_CC1Alert) 1 a.hc1) 2 a.hc2) 3 1) 4 1) 5 1) 6 1
    if !includeCRC then (b, 7)
    else (setB b 7 (computeSimpleCRC b buflen), 8)

/-- `CC1Alert::decodeSimple`: forces the instance invalid, then rejects (0)
on short buffer, wrong type byte, first reserved byte not 1, or CRC mismatch;
on success extracts the house code and returns 8. -/
def CC1Alert.decodeSimple (a : CC1Alert) (buf : Nat → Nat) (buflen : Nat) :
    CC1Alert × Nat :=
  let a0 : CC1Alert := { a with hc1 := 0xff }
  if !decodeSimpleArgsSane buflen true then (a0, 0)
  else if buf 0 ≠ FTp2_CC1Alert then (a0, 0)
  else if buf 3 ≠ 1 then (a0, 0)
  else if computeSimpleCRC buf buflen ≠ buf 7 then (a0, 0)
  else ({ a0 with hc1 := buf 1, hc2 := buf 2 }, 8)

/-- `CC1PollAndCommand::encodeSimple`: writes
`'?' hc1 hc2 (rp+1) (lf<<6 | (lt<<2)&0x3c | lc&3) 1 1` and optionally the
CRC, with `uint8_t` truncation of the arithmetic made explicit by `% 256`. -/
def CC1PollAndCommand.encodeSimple (p : CC1PollAndCommand) (buf : Nat → Nat)
    (buflen : Nat) (includeCRC : Bool) : (Nat → Nat) × Nat :=
  if !encodeSimpleArgsSane buflen includeCRC then (buf, 0)
  else
    let b4 := (Nat.lor (Nat.lor (p.lf * 64) (Nat.land (p.lt * 4) 0x3c))
      (Nat.land p.lc 3)) % 256
    let b := setB (setB (setB (setB (setB (setB (setB buf
      0 FTp2_CC1PollAndCmd) 1 p.hc1) 2 p.hc2) 3 ((p.rp + 1) % 256)) 4 b4) 5 1) 6 1
    if !includeCRC then (b, 7)
    else (setB b 7 (computeSimpleCRC b buflen), 8)

/-- `CC1PollAndCommand::decodeSimple`: forces the instance invalid, then
rejects (0) on short buffer, wrong type byte, first trailing reserved byte
(offset 5) not 1, unbiased `rp` out of range (`buf[3] - 1` in wrapping
`uint8_t` arithmetic, modelled as `(buf 3 + 255) % 256`), zero `lt` or `lf`
fields of the packed light byte, or CRC mismatch; field assignments happen in
source order so a failing check leaves exactly the fields assigned so far;
the house code is extracted last, only on full success. -/
def CC1PollAndCommand.decodeSimple (p : CC1PollAndCommand) (buf : Nat → Nat)
    (buflen : Nat) : CC1PollAndCommand × Nat :=
  let p0 : CC1PollAndCommand := { p with hc1 := 0xff }
  if !decodeSimpleArgsSane buflen true then (p0, 0)
  else if buf 0 ≠ FTp2_CC1PollAndCmd then (p0, 0)
  else if buf 5 ≠ 1 then (p0, 0)
  else if 101 ≤ (buf 3 + 255) % 256 then (p0, 0)
  else
    let p1 := { p0 with
      rp := (buf 3 + 255) % 256
      lc := Nat.land (buf 4) 3
      lt := Nat.land (buf 4 / 4) 0xf }
    if Nat.land (buf 4 / 4) 0xf = 0 then (p1, 0)
    else
      let p2 := { p1 with lf := Nat.land (buf 4 / 64) 3 }
      if Nat.land (buf 4 / 64) 3 = 0 then (p2, 0)
      else if computeSimpleCRC buf buflen ≠ buf 7 then (p2, 0)
      else ({ p2 with hc1 := buf 1, hc2 := buf 2 }, 8)

/-- `CC1PollResponse::encodeSimple`: writes
`'*' hc1 hc2 (w<<7 | s<<6 | rh+1) (tp+1) (tr+1) (sy<<7 | al<<1)` and
optionally the CRC, with `uint8_t` truncation made explicit by `% 256` and
the flag bits or-ed in after the biased value, in source order. -/
def CC1PollResponse.encodeSimple (p : CC1PollResponse) (buf : Nat → Nat)
    (buflen : Nat) (includeCRC : Bool) : (Nat → Nat) × Nat :=
  if !encodeSimpleArgsSane buflen includeCRC then (buf, 0)
  else
    let b3a := (p.rh + 1) % 256
    let b3b := if p.w then Nat.lor b3a 0x80 else b3a
    let b3 := if p.s then Nat.lor b3b 0x40 else b3b
    let b6a := (p.al * 2) % 256
    let b6 := if p.sy then Nat.lor b6a 0x80 else b6a
    let b := setB (setB (setB (setB (setB (setB (setB buf
      0 FTp2_CC1PollResponse) 1 p.hc1) 2 p.hc2) 3 b3)
      4 ((p.tp + 1) % 256)) 5 ((p.tr + 1) % 256)) 6 b6
    if !includeCRC then (b, 7)
    else (setB b 7 (computeSimpleCRC b buflen), 8)

/-- `CC1PollResponse::decodeSimple`: forces the instance invalid, then
rejects (0) on short buffer, wrong type byte, masked `rh` field zero or above
51, unbiased `tp` or `tr` out of range (wrapping `uint8_t` subtraction
modelled as `(b + 255) % 256`), ambient-light field zero or the all-ones
sentinel 0x3f, or CRC mismatch; field assignments happen in source order and
the house code is extracted last, only on full success. -/
def CC1PollResponse.decodeSimple (p : CC1PollResponse) (buf : Nat → Nat)
    (buflen : Nat) : CC1PollResponse × Nat :=
  let p0 : CC1PollResponse := { p with hc1 := 0xff }
  if !decodeSimpleArgsSane buflen true then (p0, 0)
  else if buf 0 ≠ FTp2_CC1PollResponse then (p0, 0)
  else if Nat.land (buf 3) 0x3f = 0 ∨ 51 < Nat.land (buf 3) 0x3f then (p0, 0)
  else
    let p1 := { p0 with
      rh := Nat.land (buf 3) 0x3f - 1
      w := Nat.land 0x80 (buf 3) != 0
      s := Nat.land 0x40 (buf 3) != 0 }
    if 200 ≤ (buf 4 + 255) % 256 then (p1, 0)
    else
      let p2 := { p1 with tp := (buf 4 + 255) % 256 }
      if 200 ≤ (buf 5 + 255) % 256 then (p2, 0)
      else
        let p3 := { p2 with tr := (buf 5 + 255) % 256 }
        if Nat.land (buf 6 / 2) 0x3f = 0 ∨ Nat.land (buf 6 / 2) 0x3f = 0x3f then
          (p3, 0)
        else
          let p4 := { p3 with
            al := Nat.land (buf 6 / 2) 0x3f
            sy := Nat.land 0x80 (buf 6) != 0 }
          if computeSimpleCRC buf buflen ≠ buf 7 then (p4, 0)
          else ({ p4 with hc1 := buf 1, hc2 := buf 2 }, 8)

/-- Byte buffer holding the listed bytes at indices 0, 1, 2, ... and 0 beyond
the end of the list; used to build concrete wire frames. -/
def bufL (L : List Nat) : Nat → Nat := fun j => L.getD j 0

/-- Get rad-open-percent. -/
def CC1PollAndCommand.getRP (p : CC1PollAndCommand) : Nat := p.rp

/-- Get light-colour. -/
def CC1PollAndCommand.getLC (p : CC1PollAndCommand) : Nat := p.lc

/-- Get light-on-time. -/
def CC1PollAndCommand.getLT (p : CC1PollAndCommand) : Nat := p.lt

/-- Get light-flash. -/
def CC1PollAndCommand.getLF (p : CC1PollAndCommand) : Nat := p.lf

/-- Get relative humidity. -/
def CC1PollResponse.getRH (p : CC1PollResponse) : Nat := p.rh

/-- Get pipe temperature. -/
def CC1PollResponse.getTP (p : CC1PollResponse) : Nat := p.tp

/-- Get room temperature. -/
def CC1PollResponse.getTR (p : CC1PollResponse) : Nat := p.tr

/-- Get ambient light. -/
def CC1PollResponse.getAL (p : CC1PollResponse) : Nat := p.al

/-- Writing a byte then reading the same index gives the byte back. -/
theorem setB_same (f : Nat → Nat) (i v : Nat) : setB f i v i = v := by
  simp [setB]

/-- Writing a byte leaves every other index unchanged. -/
theorem setB_ne (f : Nat → Nat) (i v j : Nat) (h : j ≠ i) : setB f i v j = f j := by
  simp [setB, h]

/-- The simple CRC reads only bytes 0..6: buffers agreeing there have the
same checksum.  In particular writing the checksum byte at offset 7 does not
disturb the checksum of the frame it protects. -/
theorem computeSimpleCRC_congr (b1 b2 : Nat → Nat) (buflen : Nat)
    (h : ∀ i, i < 7 → b1 i = b2 i) :
    computeSimpleCRC b1 buflen = computeSimpleCRC b2 buflen := by
  simp only [computeSimpleCRC, h 0 (by omega), h 1 (by omega), h 2 (by omega),
    h 3 (by omega), h 4 (by omega), h 5 (by omega), h 6 (by omega)]

/-- Byte-level description of a successful alert encoding with CRC: it
returns 8, writes the frame `'!' hc1 hc2 1 1 1 1` followed by the checksum
of the written frame itself. -/
theorem alert_encode_facts (a : CC1Alert) (buf : Nat → Nat) (buflen : Nat)
    (hlen : 8 ≤ buflen) :
    (a.encodeSimple buf buflen true).2 = 8 ∧
    (a.encodeSimple buf buflen true).1 0 = 33 ∧
    (a.encodeSimple buf buflen true).1 1 = a.hc1 ∧
    (a.encodeSimple buf buflen true).1 2 = a.hc2 ∧
    (a.encodeSimple buf buflen true).1 3 = 1 ∧
    (a.encodeSimple buf buflen true).1 4 = 1 ∧
    (a.encodeSimple buf buflen true).1 5 = 1 ∧
    (a.encodeSimple buf buflen true).1 6 = 1 ∧
    computeSimpleCRC ((a.encodeSimple buf buflen true).1) buflen =
      (a.encodeSimple buf buflen true).1 7 := by
  have hsane : encodeSimpleArgsSane buflen true = true := by
    simp [encodeSimpleArgsSane, hlen]
  have henc : a.encodeSimple buf buflen true =
      (setB (setB (setB (setB (setB (setB (setB (setB buf
        0 FTp2_CC1Alert) 1 a.hc1) 2 a.hc2) 3 1) 4 1) 5 1) 6 1)
        7 (computeSimpleCRC (setB (setB (setB (setB (setB (setB (setB buf
        0 FTp2_CC1Alert) 1 a.hc1) 2 a.hc2) 3 1) 4 1) 5 1) 6 1) buflen), 8) := by
    simp [CC1Alert.encodeSimple, hsane]
  rw [henc]
  refine ⟨rfl, ?_, ?_, ?_, ?_, ?_, ?_, ?_, ?_⟩
  · simp [setB, FTp2_CC1Alert]
  · simp [setB]
  · simp [setB]
  · simp [setB]
  · simp [setB]
  · simp [setB]
  · simp [setB]
  · rw [computeSimpleCRC_congr _
      (setB (setB (setB (setB (setB (setB (setB buf
        0 FTp2_CC1Alert) 1 a.hc1) 2 a.hc2) 3 1) 4 1) 5 1) 6 1) buflen
      (fun i hi => setB_ne _ 7 _ i (by omega))]
    simp [setB]

/-- Alert decoding succeeds on any long-enough buffer carrying the alert
type byte, first reserved byte 1, and a matching checksum, extracting the
house code from bytes 1 and 2. -/
theorem alert_decode_of_wire (a : CC1Alert) (buf : Nat → Nat) (buflen : Nat)
    (hlen : 8 ≤ buflen) (h0 : buf 0 = 33) (h3 : buf 3 = 1)
    (h7 : computeSimpleCRC buf buflen = buf 7) :
    a.decodeSimple buf buflen = (⟨buf 1, buf 2⟩, 8) := by
  have hsane : decodeSimpleArgsSane buflen true = true := by
    simp [decodeSimpleArgsSane, hlen]
  simp [CC1Alert.decodeSimple, hsane, h0, h3, h7, FTp2_CC1Alert]

/-- The Arduino clamp is the identity on values already inside the range. -/
theorem constrain_eq_self (x lo hi : Nat) (h1 : lo ≤ x) (h2 : x ≤ hi) :
    constrain x lo hi = x := by
  unfold constrain
  split_ifs <;> omega

/-- The clamp lands inside the range whenever the range is non-empty. -/
theorem constrain_mem (x lo hi : Nat) (h : lo ≤ hi) :
    lo ≤ constrain x lo hi ∧ constrain x lo hi ≤ hi := by
  unfold constrain
  split_ifs <;> omega

/-- Unpacking the packed light byte of a poll-and-command frame recovers the
three in-range fields: light-colour from bits 1:0, light-on-time from bits
5:2, light-flash from bits 7:6. -/
theorem pac_light_byte_unpack :
    ∀ lf, lf < 4 → ∀ lt, lt < 16 → ∀ lc, lc < 4 →
      Nat.land ((Nat.lor (Nat.lor (lf * 64) (Nat.land (lt * 4) 0x3c))
          (Nat.land lc 3)) % 256) 3 = lc ∧
      Nat.land ((Nat.lor (Nat.lor (lf * 64) (Nat.land (lt * 4) 0x3c))
          (Nat.land lc 3)) % 256 / 4) 0xf = lt ∧
      Nat.land ((Nat.lor (Nat.lor (lf * 64) (Nat.land (lt * 4) 0x3c))
          (Nat.land lc 3)) % 256 / 64) 3 = lf := by decide

/-- Byte-level description of a successful poll-and-command encoding with
CRC: it returns 8 and writes `'?' hc1 hc2 (rp+1) (lf<<6|lt<<2|lc) 1 1`
followed by the checksum of the written frame itself. -/
theorem pac_encode_facts (p : CC1PollAndCommand)
    (buf : Nat → Nat) (buflen : Nat) (hlen : 8 ≤ buflen) :
    (p.encodeSimple buf buflen true).2 = 8 ∧
    (p.encodeSimple buf buflen true).1 0 = 63 ∧
    (p.encodeSimple buf buflen true).1 1 = p.hc1 ∧
    (p.encodeSimple buf buflen true).1 2 = p.hc2 ∧
    (p.encodeSimple buf buflen true).1 3 = (p.rp + 1) % 256 ∧
    (p.encodeSimple buf buflen true).1 4 =
      (Nat.lor (Nat.lor (p.lf * 64) (Nat.land (p.lt * 4) 0x3c))
        (Nat.land p.lc 3)) % 256 ∧
    (p.encodeSimple buf buflen true).1 5 = 1 ∧
    (p.encodeSimple buf buflen true).1 6 = 1 ∧
    computeSimpleCRC ((p.encodeSimple buf buflen true).1) buflen =
      (p.encodeSimple buf buflen true).1 7 := by
  have hsane : encodeSimpleArgsSane buflen true = true := by
    simp [encodeSimpleArgsSane, hlen]
  have henc : p.encodeSimple buf buflen true =
      (setB (setB (setB (setB (setB (setB (setB (setB buf
        0 FTp2_CC1PollAndCmd) 1 p.hc1) 2 p.hc2) 3 ((p.rp + 1) % 256))
        4 ((Nat.lor (Nat.lor (p.lf * 64) (Nat.land (p.lt * 4) 0x3c))
          (Nat.land p.lc 3)) % 256)) 5 1) 6 1)
        7 (computeSimpleCRC (setB (setB (setB (setB (setB (setB (setB buf
        0 FTp2_CC1PollAndCmd) 1 p.hc1) 2 p.hc2) 3 ((p.rp + 1) % 256))
        4 ((Nat.lor (Nat.lor (p.lf * 64) (Nat.land (p.lt * 4) 0x3c))
          (Nat.land p.lc 3)) % 256)) 5 1) 6 1) buflen), 8) := by
    simp [CC1PollAndCommand.encodeSimple, hsane]
  rw [henc]
  refine ⟨rfl, ?_, ?_, ?_, ?_, ?_, ?_, ?_, ?_⟩
  · simp [setB, FTp2_CC1PollAndCmd]
  · simp [setB]
  · simp [setB]
  · simp [setB]
  · simp [setB]
  · simp [setB]
  · simp [setB]
  · rw [computeSimpleCRC_congr _
      (setB (setB (setB (setB (setB (setB (setB buf
        0 FTp2_CC1PollAndCmd) 1 p.hc1) 2 p.hc2) 3 ((p.rp + 1) % 256))
        4 ((Nat.lor (Nat.lor (p.lf * 64) (Nat.land (p.lt * 4) 0x3c))
          (Nat.land p.lc 3)) % 256)) 5 1) 6 1) buflen
      (fun i hi => setB_ne _ 7 _ i (by omega))]
    simp [setB]

/-- Poll-and-command decoding succeeds on any long-enough buffer carrying the
right type byte, reserved byte 1 at offset 5, an in-range biased `rp` byte,
non-zero packed `lt` and `lf` fields, and a matching checksum; the decoded
fields are exactly the unpacked bytes and the house code comes from bytes 1
and 2. -/
theorem pac_decode_of_wire (p : CC1PollAndCommand)
    (buf : Nat → Nat) (buflen : Nat)
    (hlen : 8 ≤ buflen) (h0 : buf 0 = 63) (h5 : buf 5 = 1)
    (hrp : (buf 3 + 255) % 256 < 101)
    (hlt : Nat.land (buf 4 / 4) 0xf ≠ 0)
    (hlf : Nat.land (buf 4 / 64) 3 ≠ 0)
    (h7 : computeSimpleCRC buf buflen = buf 7) :
    p.decodeSimple buf buflen =
      (⟨buf 1, buf 2, (buf 3 + 255) % 256, Nat.land (buf 4) 3,
        Nat.land (buf 4 / 4) 0xf, Nat.land (buf 4 / 64) 3⟩, 8) := by
  have hsane : decodeSimpleArgsSane buflen true = true := by
    simp [decodeSimpleArgsSane, hlen]
  simp [CC1PollAndCommand.decodeSimple, hsane, h0, h5, h7, hlt, hlf,
    FTp2_CC1PollAndCmd, Nat.not_le.2 hrp]

/-- Unpacking byte 3 of a poll-response frame recovers the biased relative
humidity from the low six bits and the window and switch flags from the top
two bits, for every in-range humidity. -/
theorem pr_rh_byte_unpack :
    ∀ rh, rh < 51 → ∀ w : Bool, ∀ s : Bool,
      Nat.land (if s then Nat.lor (if w then Nat.lor ((rh + 1) % 256) 0x80
          else (rh + 1) % 256) 0x40
        else if w then Nat.lor ((rh + 1) % 256) 0x80
          else (rh + 1) % 256) 0x3f = rh + 1 ∧
      (Nat.land 0x80 (if s then Nat.lor (if w then Nat.lor ((rh + 1) % 256) 0x80
          else (rh + 1) % 256) 0x40
        else if w then Nat.lor ((rh + 1) % 256) 0x80
          else (rh + 1) % 256) != 0) = w ∧
      (Nat.land 0x40 (if s then Nat.lor (if w then Nat.lor ((rh + 1) % 256) 0x80
          else (rh + 1) % 256) 0x40
        else if w then Nat.lor ((rh + 1) % 256) 0x80
          else (rh + 1) % 256) != 0) = s := by decide

/-- Unpacking byte 6 of a poll-response frame recovers the ambient-light
level from bits 6:1 and the syncing flag from bit 7, for every in-range
ambient-light level. -/
theorem pr_al_byte_unpack :
    ∀ al, al < 63 → 1 ≤ al → ∀ sy : Bool,
      Nat.land ((if sy then Nat.lor ((al * 2) % 256) 0x80
        else (al * 2) % 256) / 2) 0x3f = al ∧
      (Nat.land 0x80 (if sy then Nat.lor ((al * 2) % 256) 0x80
        else (al * 2) % 256) != 0) = sy := by decide

/-- Byte-level description of a successful poll-response encoding with CRC:
it returns 8 and writes `'*' hc1 hc2 (w|s|rh+1) (tp+1) (tr+1) (sy|al<<1)`
followed by the checksum of the written frame itself. -/
theorem pr_encode_facts (p : CC1PollResponse)
    (buf : Nat → Nat) (buflen : Nat) (hlen : 8 ≤ buflen) :
    (p.encodeSimple buf buflen true).2 = 8 ∧
    (p.encodeSimple buf buflen true).1 0 = 42 ∧
    (p.encodeSimple buf buflen true).1 1 = p.hc1 ∧
    (p.encodeSimple buf buflen true).1 2 = p.hc2 ∧
    (p.encodeSimple buf buflen true).1 3 =
      (if p.s then Nat.lor (if p.w then Nat.lor ((p.rh + 1) % 256) 0x80
          else (p.rh + 1) % 256) 0x40
        else if p.w then Nat.lor ((p.rh + 1) % 256) 0x80
          else (p.rh + 1) % 256) ∧
    (p.encodeSimple buf buflen true).1 4 = (p.tp + 1) % 256 ∧
    (p.encodeSimple buf buflen true).1 5 = (p.tr + 1) % 256 ∧
    (p.encodeSimple buf buflen true).1 6 =
      (if p.sy then Nat.lor ((p.al * 2) % 256) 0x80 else (p.al * 2) % 256) ∧
    computeSimpleCRC ((p.encodeSimple buf buflen true).1) buflen =
      (p.encodeSimple buf buflen true).1 7 := by
  have hsane : encodeSimpleArgsSane buflen true = true := by
    simp [encodeSimpleArgsSane, hlen]
  have henc : p.encodeSimple buf buflen true =
      (setB (setB (setB (setB (setB (setB (setB (setB buf
        0 FTp2_CC1PollResponse) 1 p.hc1) 2 p.hc2)
        3 (if p.s then Nat.lor (if p.w then Nat.lor ((p.rh + 1) % 256) 0x80
            else (p.rh + 1) % 256) 0x40
          else if p.w then Nat.lor ((p.rh + 1) % 256) 0x80
            else (p.rh + 1) % 256))
        4 ((p.tp + 1) % 256)) 5 ((p.tr + 1) % 256))
        6 (if p.sy then Nat.lor ((p.al * 2) % 256) 0x80 else (p.al * 2) % 256))
        7 (computeSimpleCRC (setB (setB (setB (setB (setB (setB (setB buf
        0 FTp2_CC1PollResponse) 1 p.hc1) 2 p.hc2)
        3 (if p.s then Nat.lor (if p.w then Nat.lor ((p.rh + 1) % 256) 0x80
            else (p.rh + 1) % 256) 0x40
          else if p.w then Nat.lor ((p.rh + 1) % 256) 0x80
            else (p.rh + 1) % 256))
        4 ((p.tp + 1) % 256)) 5 ((p.tr + 1) % 256))
        6 (if p.sy then Nat.lor ((p.al * 2) % 256) 0x80
          else (p.al * 2) % 256)) buflen), 8) := by
    simp [CC1PollResponse.encodeSimple, hsane]
  rw [henc]
  refine ⟨rfl, ?_, ?_, ?_, ?_, ?_, ?_, ?_, ?_⟩
  · simp [setB, FTp2_CC1PollResponse]
  · simp [setB]
  · simp [setB]
  · simp [setB]
  · simp [setB]
  · simp [setB]
  · simp [setB]
  · rw [computeSimpleCRC_congr _
      (setB (setB (setB (setB (setB (setB (setB buf
        0 FTp2_CC1PollResponse) 1 p.hc1) 2 p.hc2)
        3 (if p.s then Nat.lor (if p.w then Nat.lor ((p.rh + 1) % 256) 0x80
            else (p.rh + 1) % 256) 0x40
          else if p.w then Nat.lor ((p.rh + 1) % 256) 0x80
            else (p.rh + 1) % 256))
        4 ((p.tp + 1) % 256)) 5 ((p.tr + 1) % 256))
        6 (if p.sy then Nat.lor ((p.al * 2) % 256) 0x80
          else (p.al * 2) % 256)) buflen
      (fun i hi => setB_ne _ 7 _ i (by omega))]
    simp [setB]

/-- Poll-response decoding succeeds on any long-enough buffer carrying the
right type byte, in-range packed humidity, temperature and ambient-light
bytes, and a matching checksum; the decoded fields are exactly the unpacked
bytes and the house code comes from bytes 1 and 2. -/
theorem pr_decode_of_wire (p : CC1PollResponse)
    (buf : Nat → Nat) (buflen : Nat)
    (hlen : 8 ≤ buflen) (h0 : buf 0 = 42)
    (hrh : ¬(Nat.land (buf 3) 0x3f = 0 ∨ 51 < Nat.land (buf 3) 0x3f))
    (htp : (buf 4 + 255) % 256 < 200)
    (htr : (buf 5 + 255) % 256 < 200)
    (hal : ¬(Nat.land (buf 6 / 2) 0x3f = 0 ∨ Nat.land (buf 6 / 2) 0x3f = 0x3f))
    (h7 : computeSimpleCRC buf buflen = buf 7) :
    p.decodeSimple buf buflen =
      (⟨buf 1, buf 2, Nat.land (buf 3) 0x3f - 1, (buf 4 + 255) % 256,
        (buf 5 + 255) % 256, Nat.land (buf 6 / 2) 0x3f,
        Nat.land 0x80 (buf 3) != 0, Nat.land 0x40 (buf 3) != 0,
        Nat.land 0x80 (buf 6) != 0⟩, 8) := by
  have hsane : decodeSimpleArgsSane buflen true = true := by
    simp [decodeSimpleArgsSane, hlen]
  simp [CC1PollResponse.decodeSimple, hsane, h0, hrh, htr, hal, h7,
    FTp2_CC1PollResponse, Nat.not_le.2 htp, Nat.not_le.2 htr]

/-- Inversion of a successful alert decode: the buffer was long enough, the
type and first reserved bytes checked out, the checksum matched, and the
result holds the house code from bytes 1 and 2. -/
theorem alert_decode_ret8 (a : CC1Alert) (buf : Nat → Nat) (buflen : Nat)
    (h : (a.decodeSimple buf buflen).2 = 8) :
    8 ≤ buflen ∧ buf 0 = 33 ∧ buf 3 = 1 ∧ computeSimpleCRC buf buflen = buf 7 ∧
    (a.decodeSimple buf buflen).1 = ⟨buf 1, buf 2⟩ := by
  simp only [CC1Alert.decodeSimple] at h ⊢
  split_ifs at h ⊢ <;> simp_all [decodeSimpleArgsSane, FTp2_CC1Alert]

/-- Inversion of a successful poll-and-command decode: every validation
passed and the result holds exactly the unpacked fields, with the house code
from bytes 1 and 2. -/
theorem pac_decode_ret8 (p : CC1PollAndCommand)
    (buf : Nat → Nat) (buflen : Nat)
    (h : (p.decodeSimple buf buflen).2 = 8) :
    8 ≤ buflen ∧ buf 0 = 63 ∧ buf 5 = 1 ∧ (buf 3 + 255) % 256 < 101 ∧
    Nat.land (buf 4 / 4) 0xf ≠ 0 ∧ Nat.land (buf 4 / 64) 3 ≠ 0 ∧
    computeSimpleCRC buf buflen = buf 7 ∧
    (p.decodeSimple buf buflen).1 = ⟨buf 1, buf 2, (buf 3 + 255) % 256,
      Nat.land (buf 4) 3, Nat.land (buf 4 / 4) 0xf, Nat.land (buf 4 / 64) 3⟩ := by
  simp only [CC1PollAndCommand.decodeSimple] at h ⊢
  split_ifs at h ⊢ <;> simp_all [decodeSimpleArgsSane, FTp2_CC1PollAndCmd]

/-- Inversion of a successful poll-response decode: every validation passed
and the result holds exactly the unpacked fields, with the house code from
bytes 1 and 2. -/
theorem pr_decode_ret8 (p : CC1PollResponse)
    (buf : Nat → Nat) (buflen : Nat)
    (h : (p.decodeSimple buf buflen).2 = 8) :
    8 ≤ buflen ∧ buf 0 = 42 ∧
    Nat.land (buf 3) 0x3f ≠ 0 ∧ Nat.land (buf 3) 0x3f ≤ 51 ∧
    (buf 4 + 255) % 256 < 200 ∧ (buf 5 + 255) % 256 < 200 ∧
    Nat.land (buf 6 / 2) 0x3f ≠ 0 ∧ Nat.land (buf 6 / 2) 0x3f ≠ 0x3f ∧
    computeSimpleCRC buf buflen = buf 7 ∧
    (p.decodeSimple buf buflen).1 =
      ⟨buf 1, buf 2, Nat.land (buf 3) 0x3f - 1, (buf 4 + 255) % 256,
        (buf 5 + 255) % 256, Nat.land (buf 6 / 2) 0x3f,
        Nat.land 0x80 (buf 3) != 0, Nat.land 0x40 (buf 3) != 0,
        Nat.land 0x80 (buf 6) != 0⟩ := by
  simp only [CC1PollResponse.decodeSimple] at h ⊢
  split_ifs at h ⊢ <;> simp_all [decodeSimpleArgsSane, FTp2_CC1PollResponse]

/-- Every failing alert decode leaves the forced-invalid house code. -/
theorem alert_decode_ret0 (a : CC1Alert) (buf : Nat → Nat) (buflen : Nat)
    (h : (a.decodeSimple buf buflen).2 = 0) :
    (a.decodeSimple buf buflen).1.hc1 = 0xff := by
  simp only [CC1Alert.decodeSimple] at h ⊢
  split_ifs at h ⊢ <;> simp_all

/-- Every failing poll-and-command decode leaves the forced-invalid house
code. -/
theorem pac_decode_ret0 (p : CC1PollAndCommand)
    (buf : Nat → Nat) (buflen : Nat)
    (h : (p.decodeSimple buf buflen).2 = 0) :
    (p.decodeSimple buf buflen).1.hc1 = 0xff := by
  simp only [CC1PollAndCommand.decodeSimple] at h ⊢
  split_ifs at h ⊢ <;> simp_all

/-- Every failing poll-response decode leaves the forced-invalid house code. -/
theorem pr_decode_ret0 (p : CC1PollResponse)
    (buf : Nat → Nat) (buflen : Nat)
    (h : (p.decodeSimple buf buflen).2 = 0) :
    (p.decodeSimple buf buflen).1.hc1 = 0xff := by
  simp only [CC1PollResponse.decodeSimple] at h ⊢
  split_ifs at h ⊢ <;> simp_all

/-- Masking with the low two bits is the identity on two-bit values. -/
theorem land3_eq : ∀ lc, lc < 4 → Nat.land lc 3 = lc := by decide

/-- C1: for every variant and every in-range factory input with both
house-code bytes different from 0xFF, encoding the made instance with
checksum into a buffer of length at least 8 and then decoding that buffer
with the same variant returns 8 and reproduces every original field exactly:
the house code for all variants, rp/lc/lt/lf for PollAndCommand and
rh/tp/tr/al/w/s/sy for PollResponse. -/
theorem claim_C1_roundtrip
    (hc1 hc2 : Nat) (hh1 : hc1 < 255) (hh2 : hc2 < 255)
    (rp lc lt lf : Nat) (hrp : rp ≤ 100) (hlc : lc ≤ 3)
    (hlt1 : 1 ≤ lt) (hlt2 : lt ≤ 15) (hlf1 : 1 ≤ lf) (hlf2 : lf ≤ 3)
    (rh tp tr al : Nat) (hrh : rh ≤ 50) (htp : tp ≤ 199) (htr : tr ≤ 199)
    (hal1 : 1 ≤ al) (hal2 : al ≤ 62) (w s sy : Bool)
    (a0 : CC1Alert) (p0 : CC1PollAndCommand) (r0 : CC1PollResponse)
    (buf : Nat → Nat) (buflen : Nat) (hlen : 8 ≤ buflen) :
    (CC1Alert.decodeSimple a0
      ((CC1Alert.make hc1 hc2).encodeSimple buf buflen true).1 buflen).2 = 8 ∧
    (CC1Alert.decodeSimple a0
      ((CC1Alert.make hc1 hc2).encodeSimple buf buflen true).1 buflen).1
      = ⟨hc1, hc2⟩ ∧
    (CC1PollAndCommand.decodeSimple p0
      ((CC1PollAndCommand.make hc1 hc2 rp lc lt lf).encodeSimple
        buf buflen true).1 buflen).2 = 8 ∧
    (CC1PollAndCommand.decodeSimple p0
      ((CC1PollAndCommand.make hc1 hc2 rp lc lt lf).encodeSimple
        buf buflen true).1 buflen).1 = ⟨hc1, hc2, rp, lc, lt, lf⟩ ∧
    (CC1PollResponse.decodeSimple r0
      ((CC1PollResponse.make hc1 hc2 rh tp tr al s w sy).encodeSimple
        buf buflen true).1 buflen).2 = 8 ∧
    (CC1PollResponse.decodeSimple r0
      ((CC1PollResponse.make hc1 hc2 rh tp tr al s w sy).encodeSimple
        buf buflen true).1 buflen).1 = ⟨hc1, hc2, rh, tp, tr, al, w, s, sy⟩ := by
  have hA : CC1Alert.make hc1 hc2 = (⟨hc1, hc2⟩ : CC1Alert) := rfl
  have hP : CC1PollAndCommand.make hc1 hc2 rp lc lt lf
      = (⟨hc1, hc2, rp, lc, lt, lf⟩ : CC1PollAndCommand) := by
    simp [CC1PollAndCommand.make,
      constrain_eq_self rp 0 100 (Nat.zero_le _) hrp,
      constrain_eq_self lt 1 15 hlt1 hlt2,
      constrain_eq_self lf 1 3 hlf1 hlf2,
      land3_eq lc (by omega)]
  have hR : CC1PollResponse.make hc1 hc2 rh tp tr al s w sy
      = (⟨hc1, hc2, rh, tp, tr, al, w, s, sy⟩ : CC1PollResponse) := by
    simp [CC1PollResponse.make,
      constrain_eq_self rh 0 50 (Nat.zero_le _) hrh,
      constrain_eq_self tp 0 199 (Nat.zero_le _) htp,
      constrain_eq_self tr 0 199 (Nat.zero_le _) htr,
      constrain_eq_self al 1 62 hal1 hal2]
  rw [hA, hP, hR]
  obtain ⟨fa8, fa0, fa1, fa2, fa3, fa4, fa5, fa6, facrc⟩ :=
    alert_encode_facts ⟨hc1, hc2⟩ buf buflen hlen
  obtain ⟨fp8, fp0, fp1, fp2, fp3, fp4, fp5, fp6, fpcrc⟩ :=
    pac_encode_facts ⟨hc1, hc2, rp, lc, lt, lf⟩ buf buflen hlen
  obtain ⟨fr8, fr0, fr1, fr2, fr3, fr4, fr5, fr6, frcrc⟩ :=
    pr_encode_facts ⟨hc1, hc2, rh, tp, tr, al, w, s, sy⟩
      buf buflen hlen
  dsimp only at fa1 fa2 fp1 fp2 fp3 fp4 fr1 fr2 fr3 fr4 fr5 fr6
  have hdA := alert_decode_of_wire a0 _ buflen hlen fa0 fa3 facrc
  have upP := pac_light_byte_unpack lf (by omega) lt (by omega) lc (by omega)
  have fp3' : ((⟨hc1, hc2, rp, lc, lt, lf⟩ : CC1PollAndCommand).encodeSimple
      buf buflen true).1 3 = rp + 1 := by
    rw [fp3]; exact Nat.mod_eq_of_lt (by omega)
  have hdP := pac_decode_of_wire p0 _ buflen hlen fp0 fp5
    (by rw [fp3']; omega)
    (by rw [fp4]; rw [upP.2.1]; omega)
    (by rw [fp4]; rw [upP.2.2]; omega)
    fpcrc
  have upR3 := pr_rh_byte_unpack rh (by omega) w s
  have upR6 := pr_al_byte_unpack al (by omega) hal1 sy
  have hdR := pr_decode_of_wire r0 _ buflen hlen fr0
    (by rw [fr3]; rw [upR3.1]; omega)
    (by rw [fr4]; omega)
    (by rw [fr5]; omega)
    (by rw [fr6]; rw [upR6.1]; omega)
    frcrc
  refine ⟨by rw [hdA], ?_, by rw [hdP], ?_, by rw [hdR], ?_⟩
  · rw [hdA]
    simp [fa1, fa2]
  · rw [hdP]
    simp only [fp1, fp2, fp3', fp4]
    simp [upP.1, upP.2.1, upP.2.2, CC1PollAndCommand.mk.injEq]
    omega
  · rw [hdR]
    simp only [fr1, fr2, fr3, fr4, fr5, fr6]
    simp [upR3.1, upR3.2.1, upR3.2.2, upR6.1, upR6.2,
      CC1PollResponse.mk.injEq]
    omega

/-- Witness for C1 at the unit-test inputs: house code 10/21, poll-and-command
fields rp=1 lc=2 lt=3 lf=1, poll-response fields rh=45 tp=160 tr=101 al=35
s=true w=false sy=false, encoded into a zeroed buffer of length 8. -/
theorem claim_C1_roundtrip_witness :
    (CC1Alert.decodeSimple ⟨255, 0⟩
      ((CC1Alert.make 10 21).encodeSimple (bufL []) 8 true).1 8).2 = 8 ∧
    (CC1Alert.decodeSimple ⟨255, 0⟩
      ((CC1Alert.make 10 21).encodeSimple (bufL []) 8 true).1 8).1
      = ⟨10, 21⟩ ∧
    (CC1PollAndCommand.decodeSimple ⟨255, 0, 0, 0, 0, 0⟩
      ((CC1PollAndCommand.make 10 21 1 2 3 1).encodeSimple
        (bufL []) 8 true).1 8).2 = 8 ∧
    (CC1PollAndCommand.decodeSimple ⟨255, 0, 0, 0, 0, 0⟩
      ((CC1PollAndCommand.make 10 21 1 2 3 1).encodeSimple
        (bufL []) 8 true).1 8).1 = ⟨10, 21, 1, 2, 3, 1⟩ ∧
    (CC1PollResponse.decodeSimple ⟨255, 0, 0, 0, 0, 0, false, false, false⟩
      ((CC1PollResponse.make 10 21 45 160 101 35 true false false).encodeSimple
        (bufL []) 8 true).1 8).2 = 8 ∧
    (CC1PollResponse.decodeSimple ⟨255, 0, 0, 0, 0, 0, false, false, false⟩
      ((CC1PollResponse.make 10 21 45 160 101 35 true false false).encodeSimple
        (bufL []) 8 true).1 8).1 = ⟨10, 21, 45, 160, 101, 35, false, true, false⟩ :=
  claim_C1_roundtrip 10 21 (by decide) (by decide)
    1 2 3 1 (by decide) (by decide) (by decide) (by decide) (by decide) (by decide)
    45 160 101 35 (by decide) (by decide) (by decide) (by decide) (by decide)
    false true false
    ⟨255, 0⟩ ⟨255, 0, 0, 0, 0, 0⟩ ⟨255, 0, 0, 0, 0, 0, false, false, false⟩
    (bufL []) 8 (by decide)

/-- The simple CRC never exceeds 128: the folded value is masked to 7 bits
and the alternate constant is 0x80. -/
theorem computeSimpleCRC_le (buf : Nat → Nat) (buflen : Nat) :
    computeSimpleCRC buf buflen ≤ 128 := by
  have hu : ∀ c d : Nat, crc7_5B_update c d < 128 := fun c d => by
    unfold crc7_5B_update
    exact Nat.mod_lt _ (by omega)
  simp only [computeSimpleCRC]
  split_ifs with h1 h2 h3
  · omega
  · omega
  · simp [crc7_5B_update_nz_ALT]
  · exact Nat.le_of_lt (lt_of_lt_of_le (hu _ _) (by omega))

/-- The simple CRC is positive on the success path: long-enough buffer with a
non-zero leading byte. -/
theorem computeSimpleCRC_pos (buf : Nat → Nat) (buflen : Nat)
    (hlen : 7 ≤ buflen) (h0 : buf 0 ≠ 0) : 0 < computeSimpleCRC buf buflen := by
  simp only [computeSimpleCRC]
  split_ifs with h1 h2
  · omega
  · simp [crc7_5B_update_nz_ALT]
  · omega

/-- The packed light byte of a poll-and-command frame is non-zero whenever
the light-flash and light-on-time fields are in their (positive) ranges. -/
theorem pac_light_byte_pos :
    ∀ lf, 1 ≤ lf → lf < 4 → ∀ lt, 1 ≤ lt → lt < 16 → ∀ lc, lc < 4 →
      0 < (Nat.lor (Nat.lor (lf * 64) (Nat.land (lt * 4) 0x3c))
        (Nat.land lc 3)) % 256 := by decide

/-- Byte 3 of a poll-response frame is strictly between 0x00 and 0xFF for
every in-range humidity and every flag combination. -/
theorem pr_rh_byte_range :
    ∀ rh, rh < 51 → ∀ w : Bool, ∀ s : Bool,
      0 < (if s then Nat.lor (if w then Nat.lor ((rh + 1) % 256) 0x80
          else (rh + 1) % 256) 0x40
        else if w then Nat.lor ((rh + 1) % 256) 0x80
          else (rh + 1) % 256) ∧
      (if s then Nat.lor (if w then Nat.lor ((rh + 1) % 256) 0x80
          else (rh + 1) % 256) 0x40
        else if w then Nat.lor ((rh + 1) % 256) 0x80
          else (rh + 1) % 256) < 255 := by decide

/-- Byte 6 of a poll-response frame is strictly between 0x00 and 0xFF for
every in-range ambient-light level and both syncing-flag values. -/
theorem pr_al_byte_range :
    ∀ al, 1 ≤ al → al < 63 → ∀ sy : Bool,
      0 < (if sy then Nat.lor ((al * 2) % 256) 0x80 else (al * 2) % 256) ∧
      (if sy then Nat.lor ((al * 2) % 256) 0x80 else (al * 2) % 256) < 255 := by
  decide

/-- Counterexample to C2 as stated: two legally constructed, valid frames
carry a live-data wire byte equal to 0xFF or 0x00.  The clamped
poll-and-command instance with lf=3, lt=15, lc=3 encodes 0xFF at payload
offset 4 (the packed light byte), and the alert with the valid house code
(0, 0) encodes 0x00 at payload offset 1 (a house-code byte). -/
theorem claim_C2_counterexample :
    (CC1PollAndCommand.make 10 21 0 3 15 3).isValid = true ∧
    ((CC1PollAndCommand.make 10 21 0 3 15 3).encodeSimple
      (bufL []) 8 true).2 = 8 ∧
    ((CC1PollAndCommand.make 10 21 0 3 15 3).encodeSimple
      (bufL []) 8 true).1 4 = 255 ∧
    (CC1Alert.make 0 0).isValid = true ∧
    ((CC1Alert.make 0 0).encodeSimple (bufL []) 8 true).2 = 8 ∧
    ((CC1Alert.make 0 0).encodeSimple (bufL []) 8 true).1 1 = 0 := by
  decide

/-- C2 amended: for every frame legally constructed via a clamping factory
with a valid house code, encoded with checksum into a long-enough buffer,
every wire byte is strictly between 0x00 and 0xFF, except that the two
house-code bytes (offsets 1 and 2) are only guaranteed below 0xFF (they may
be 0x00), and the packed light byte of a poll-and-command frame (offset 4)
is only guaranteed non-zero and at most 0xFF (it reaches 0xFF at lf=3,
lt=15, lc=3). -/
theorem claim_C2_whitening_amended
    (hc1 hc2 : Nat) (hh1 : hc1 < 255) (hh2 : hc2 < 255)
    (rp lc lt lf rh tp tr al : Nat) (w s sy : Bool)
    (buf : Nat → Nat) (buflen : Nat) (hlen : 8 ≤ buflen) :
    ((∀ i, i < 8 → i ≠ 1 → i ≠ 2 →
        0 < ((CC1Alert.make hc1 hc2).encodeSimple buf buflen true).1 i ∧
        ((CC1Alert.make hc1 hc2).encodeSimple buf buflen true).1 i < 255) ∧
      ((CC1Alert.make hc1 hc2).encodeSimple buf buflen true).1 1 < 255 ∧
      ((CC1Alert.make hc1 hc2).encodeSimple buf buflen true).1 2 < 255) ∧
    ((∀ i, i < 8 → i ≠ 1 → i ≠ 2 → i ≠ 4 →
        0 < ((CC1PollAndCommand.make hc1 hc2 rp lc lt lf).encodeSimple
          buf buflen true).1 i ∧
        ((CC1PollAndCommand.make hc1 hc2 rp lc lt lf).encodeSimple
          buf buflen true).1 i < 255) ∧
      ((CC1PollAndCommand.make hc1 hc2 rp lc lt lf).encodeSimple
        buf buflen true).1 1 < 255 ∧
      ((CC1PollAndCommand.make hc1 hc2 rp lc lt lf).encodeSimple
        buf buflen true).1 2 < 255 ∧
      0 < ((CC1PollAndCommand.make hc1 hc2 rp lc lt lf).encodeSimple
        buf buflen true).1 4 ∧
      ((CC1PollAndCommand.make hc1 hc2 rp lc lt lf).encodeSimple
        buf buflen true).1 4 ≤ 255) ∧
    ((∀ i, i < 8 → i ≠ 1 → i ≠ 2 →
        0 < ((CC1PollResponse.make hc1 hc2 rh tp tr al s w sy).encodeSimple
          buf buflen true).1 i ∧
        ((CC1PollResponse.make hc1 hc2 rh tp tr al s w sy).encodeSimple
          buf buflen true).1 i < 255) ∧
      ((CC1PollResponse.make hc1 hc2 rh tp tr al s w sy).encodeSimple
        buf buflen true).1 1 < 255 ∧
      ((CC1PollResponse.make hc1 hc2 rh tp tr al s w sy).encodeSimple
        buf buflen true).1 2 < 255) := by
  obtain ⟨fa8, fa0, fa1, fa2, fa3, fa4, fa5, fa6, facrc⟩ :=
    alert_encode_facts (CC1Alert.make hc1 hc2) buf buflen hlen
  obtain ⟨fp8, fp0, fp1, fp2, fp3, fp4, fp5, fp6, fpcrc⟩ :=
    pac_encode_facts
      (CC1PollAndCommand.make hc1 hc2 rp lc lt lf) buf buflen hlen
  obtain ⟨fr8, fr0, fr1, fr2, fr3, fr4, fr5, fr6, frcrc⟩ :=
    pr_encode_facts
      (CC1PollResponse.make hc1 hc2 rh tp tr al s w sy) buf buflen hlen
  have hprp : (CC1PollAndCommand.make hc1 hc2 rp lc lt lf).rp ≤ 100 :=
    (constrain_mem rp 0 100 (by omega)).2
  have hplc : (CC1PollAndCommand.make hc1 hc2 rp lc lt lf).lc ≤ 3 :=
    Nat.and_le_right
  have hplt1 : 1 ≤ (CC1PollAndCommand.make hc1 hc2 rp lc lt lf).lt :=
    (constrain_mem lt 1 15 (by omega)).1
  have hplt2 : (CC1PollAndCommand.make hc1 hc2 rp lc lt lf).lt ≤ 15 :=
    (constrain_mem lt 1 15 (by omega)).2
  have hplf1 : 1 ≤ (CC1PollAndCommand.make hc1 hc2 rp lc lt lf).lf :=
    (constrain_mem lf 1 3 (by omega)).1
  have hplf2 : (CC1PollAndCommand.make hc1 hc2 rp lc lt lf).lf ≤ 3 :=
    (constrain_mem lf 1 3 (by omega)).2
  have hrrh : (CC1PollResponse.make hc1 hc2 rh tp tr al s w sy).rh ≤ 50 :=
    (constrain_mem rh 0 50 (by omega)).2
  have hrtp : (CC1PollResponse.make hc1 hc2 rh tp tr al s w sy).tp ≤ 199 :=
    (constrain_mem tp 0 199 (by omega)).2
  have hrtr : (CC1PollResponse.make hc1 hc2 rh tp tr al s w sy).tr ≤ 199 :=
    (constrain_mem tr 0 199 (by omega)).2
  have hral1 : 1 ≤ (CC1PollResponse.make hc1 hc2 rh tp tr al s w sy).al :=
    (constrain_mem al 1 62 (by omega)).1
  have hral2 : (CC1PollResponse.make hc1 hc2 rh tp tr al s w sy).al ≤ 62 :=
    (constrain_mem al 1 62 (by omega)).2
  refine ⟨⟨?_, ?_, ?_⟩, ⟨?_, ?_, ?_, ?_, ?_⟩, ⟨?_, ?_, ?_⟩⟩
  · intro i hi hi1 hi2
    have hcases : i = 0 ∨ i = 3 ∨ i = 4 ∨ i = 5 ∨ i = 6 ∨ i = 7 := by omega
    rcases hcases with rfl | rfl | rfl | rfl | rfl | rfl
    · rw [fa0]; omega
    · rw [fa3]; omega
    · rw [fa4]; omega
    · rw [fa5]; omega
    · rw [fa6]; omega
    · rw [← facrc]
      have h1 := computeSimpleCRC_pos
        ((CC1Alert.make hc1 hc2).encodeSimple buf buflen true).1 buflen
        (by omega) (by rw [fa0]; omega)
      have h2 := computeSimpleCRC_le
        ((CC1Alert.make hc1 hc2).encodeSimple buf buflen true).1 buflen
      omega
  · rw [fa1]; exact hh1
  · rw [fa2]; exact hh2
  · intro i hi hi1 hi2 hi4
    have hcases : i = 0 ∨ i = 3 ∨ i = 5 ∨ i = 6 ∨ i = 7 := by omega
    rcases hcases with rfl | rfl | rfl | rfl | rfl
    · rw [fp0]; omega
    · rw [fp3]; omega
    · rw [fp5]; omega
    · rw [fp6]; omega
    · rw [← fpcrc]
      have h1 := computeSimpleCRC_pos
        ((CC1PollAndCommand.make hc1 hc2 rp lc lt lf).encodeSimple
          buf buflen true).1 buflen (by omega) (by rw [fp0]; omega)
      have h2 := computeSimpleCRC_le
        ((CC1PollAndCommand.make hc1 hc2 rp lc lt lf).encodeSimple
          buf buflen true).1 buflen
      omega
  · rw [fp1]; exact hh1
  · rw [fp2]; exact hh2
  · rw [fp4]
    exact pac_light_byte_pos _ hplf1 (by omega) _ hplt1 (by omega) _ (by omega)
  · rw [fp4]; omega
  · intro i hi hi1 hi2
    have hcases : i = 0 ∨ i = 3 ∨ i = 4 ∨ i = 5 ∨ i = 6 ∨ i = 7 := by omega
    rcases hcases with rfl | rfl | rfl | rfl | rfl | rfl
    · rw [fr0]; omega
    · rw [fr3]
      exact pr_rh_byte_range _ (by omega) _ _
    · rw [fr4]; omega
    · rw [fr5]; omega
    · rw [fr6]
      exact pr_al_byte_range _ hral1 (by omega) _
    · rw [← frcrc]
      have h1 := computeSimpleCRC_pos
        ((CC1PollResponse.make hc1 hc2 rh tp tr al s w sy).encodeSimple
          buf buflen true).1 buflen (by omega) (by rw [fr0]; omega)
      have h2 := computeSimpleCRC_le
        ((CC1PollResponse.make hc1 hc2 rh tp tr al s w sy).encodeSimple
          buf buflen true).1 buflen
      omega
  · rw [fr1]; exact hh1
  · rw [fr2]; exact hh2

/-- Witness for the amended C2 at concrete inputs: the checksum byte of an
encoded alert lies strictly between 0x00 and 0xFF, the poll-and-command
house-code byte stays below 0xFF and its packed light byte is non-zero and
at most 0xFF, and a poll-response house-code byte stays below 0xFF. -/
theorem claim_C2_whitening_amended_witness :
    (0 < ((CC1Alert.make 10 21).encodeSimple (bufL []) 8 true).1 7 ∧
      ((CC1Alert.make 10 21).encodeSimple (bufL []) 8 true).1 7 < 255) ∧
    ((CC1PollAndCommand.make 10 21 0 3 15 3).encodeSimple
      (bufL []) 8 true).1 1 < 255 ∧
    0 < ((CC1PollAndCommand.make 10 21 0 3 15 3).encodeSimple
      (bufL []) 8 true).1 4 ∧
    ((CC1PollAndCommand.make 10 21 0 3 15 3).encodeSimple
      (bufL []) 8 true).1 4 ≤ 255 ∧
    ((CC1PollResponse.make 10 21 45 160 101 35 true false false).encodeSimple
      (bufL []) 8 true).1 2 < 255 := by
  have h := claim_C2_whitening_amended 10 21 (by decide) (by decide)
    0 3 15 3 45 160 101 35 false true false (bufL []) 8 (by decide)
  exact ⟨h.1.1 7 (by decide) (by decide) (by decide), h.2.1.2.1,
    h.2.1.2.2.2.1, h.2.1.2.2.2.2, h.2.2.2.2⟩

/-- Counterexample to C3 as stated: an alert frame whose reserved byte at
offset 4 is 2 (not 1) but whose checksum byte (100) is consistent with the
buffer contents decodes successfully (returns 8), because decode only checks
the first reserved byte (offset 3) explicitly. -/
theorem claim_C3_counterexample :
    bufL [33, 10, 21, 1, 2, 1, 1, 100] 4 ≠ 1 ∧
    (CC1Alert.decodeSimple ⟨255, 0⟩
      (bufL [33, 10, 21, 1, 2, 1, 1, 100]) 8).2 = 8 := by
  decide

/-- C3 amended: decode fails (returns 0) whenever the explicitly checked
reserved byte differs from 1 — offset 3 for Alert, offset 5 for
PollAndCommand — regardless of the checksum byte; the remaining reserved
bytes are only protected through the checksum. -/
theorem claim_C3_reserved_amended (a : CC1Alert) (p : CC1PollAndCommand)
    (buf : Nat → Nat) (buflen : Nat) :
    (buf 3 ≠ 1 → (a.decodeSimple buf buflen).2 = 0) ∧
    (buf 5 ≠ 1 → (p.decodeSimple buf buflen).2 = 0) := by
  constructor
  · intro h3
    simp only [CC1Alert.decodeSimple]
    split_ifs <;> simp_all
  · intro h5
    simp only [CC1PollAndCommand.decodeSimple]
    split_ifs <;> simp_all

/-- Witness for the amended C3: an alert frame with reserved byte 0 at
offset 3 and a poll-and-command frame with reserved byte 2 at offset 5 are
both rejected, even with consistent checksums elsewhere. -/
theorem claim_C3_reserved_amended_witness :
    bufL [33, 10, 21, 0, 1, 1, 1, 55] 3 ≠ 1 ∧
    (CC1Alert.decodeSimple ⟨255, 0⟩
      (bufL [33, 10, 21, 0, 1, 1, 1, 55]) 8).2 = 0 ∧
    bufL [63, 10, 21, 2, 78, 2, 1, 92] 5 ≠ 1 ∧
    (CC1PollAndCommand.decodeSimple ⟨255, 0, 0, 0, 0, 0⟩
      (bufL [63, 10, 21, 2, 78, 2, 1, 92]) 8).2 = 0 := by
  have h := claim_C3_reserved_amended ⟨255, 0⟩ ⟨255, 0, 0, 0, 0, 0⟩
  exact ⟨by decide, (h (bufL [33, 10, 21, 0, 1, 1, 1, 55]) 8).1 (by decide),
    by decide, (h (bufL [63, 10, 21, 2, 78, 2, 1, 92]) 8).2 (by decide)⟩

/-- C4: for every variant, every prior instance state and every buffer and
length, a decode returning 0 leaves the instance with the forced-invalid
house code 0xFF and `isValid` false. -/
theorem claim_C4_fail_leaves_invalid (a : CC1Alert) (p : CC1PollAndCommand)
    (r : CC1PollResponse) (buf : Nat → Nat) (buflen : Nat) :
    ((a.decodeSimple buf buflen).2 = 0 →
      (a.decodeSimple buf buflen).1.hc1 = 0xff ∧
      (a.decodeSimple buf buflen).1.isValid = false) ∧
    ((p.decodeSimple buf buflen).2 = 0 →
      (p.decodeSimple buf buflen).1.hc1 = 0xff ∧
      (p.decodeSimple buf buflen).1.isValid = false) ∧
    ((r.decodeSimple buf buflen).2 = 0 →
      (r.decodeSimple buf buflen).1.hc1 = 0xff ∧
      (r.decodeSimple buf buflen).1.isValid = false) := by
  refine ⟨fun h => ?_, fun h => ?_, fun h => ?_⟩
  · have h1 := alert_decode_ret0 a buf buflen h
    exact ⟨h1, by simp [CC1Alert.isValid, CC1Alert.houseCodeIsValid, h1]⟩
  · have h1 := pac_decode_ret0 p buf buflen h
    exact ⟨h1, by
      simp [CC1PollAndCommand.isValid, CC1PollAndCommand.houseCodeIsValid, h1]⟩
  · have h1 := pr_decode_ret0 r buf buflen h
    exact ⟨h1, by
      simp [CC1PollResponse.isValid, CC1PollResponse.houseCodeIsValid, h1]⟩

/-- Witness for C4: decoding an empty (length-0) buffer fails for an alert
instance that previously held a valid house code, and the instance is left
forced-invalid. -/
theorem claim_C4_fail_leaves_invalid_witness :
    (CC1Alert.decodeSimple ⟨10, 21⟩ (bufL []) 0).2 = 0 ∧
    (CC1Alert.decodeSimple ⟨10, 21⟩ (bufL []) 0).1.hc1 = 0xff ∧
    (CC1Alert.decodeSimple ⟨10, 21⟩ (bufL []) 0).1.isValid = false := by
  have h := (claim_C4_fail_leaves_invalid ⟨10, 21⟩ ⟨255, 0, 0, 0, 0, 0⟩
    ⟨255, 0, 0, 0, 0, 0, false, false, false⟩ (bufL []) 0).1 (by decide)
  exact ⟨by decide, h.1, h.2⟩

/-- C5: the four checksum fixtures: 80 over the alert frame with zero house
codes, 55 over the frame with house codes 10 and 21, 0 for every long-enough
buffer whose leading byte is zero, and 0 for every declared length below 7. -/
theorem claim_C5_checksum_fixtures :
    computeSimpleCRC (bufL [33, 0, 0, 1, 1, 1, 1]) 7 = 80 ∧
    computeSimpleCRC (bufL [33, 10, 21, 1, 1, 1, 1]) 7 = 55 ∧
    (∀ (buf : Nat → Nat) (buflen : Nat), 7 ≤ buflen → buf 0 = 0 →
      computeSimpleCRC buf buflen = 0) ∧
    (∀ (buf : Nat → Nat) (buflen : Nat), buflen < 7 →
      computeSimpleCRC buf buflen = 0) := by
  refine ⟨by decide, by decide, ?_, ?_⟩
  · intro buf buflen hlen h0
    simp [computeSimpleCRC, h0, Nat.not_lt.2 hlen]
  · intro buf buflen hlen
    simp [computeSimpleCRC, hlen]

/-- Witness for C5's universally quantified fixtures: a buffer with a zero
leading byte hashes to 0 at length 13, and any buffer hashes to 0 at the
short declared length 6. -/
theorem claim_C5_checksum_fixtures_witness :
    7 ≤ 13 ∧ bufL [0, 9, 9] 0 = 0 ∧
    computeSimpleCRC (bufL [0, 9, 9]) 13 = 0 ∧
    (6 : Nat) < 7 ∧ computeSimpleCRC (bufL [33, 10, 21]) 6 = 0 :=
  ⟨by decide, by decide,
    claim_C5_checksum_fixtures.2.2.1 (bufL [0, 9, 9]) 13 (by decide) (by decide),
    by decide,
    claim_C5_checksum_fixtures.2.2.2 (bufL [33, 10, 21]) 6 (by decide)⟩

/-- C6: on the success path — declared length at least 7 and a non-zero
leading byte — the simple CRC is never 0: a zero folded value is replaced by
the fixed alternate non-zero constant. -/
theorem claim_C6_crc_nonzero (buf : Nat → Nat) (buflen : Nat)
    (hlen : 7 ≤ buflen) (h0 : buf 0 ≠ 0) :
    computeSimpleCRC buf buflen ≠ 0 := by
  have h := computeSimpleCRC_pos buf buflen hlen h0
  omega

/-- Witness for C6 at the fixture frame with zero house codes. -/
theorem claim_C6_crc_nonzero_witness :
    7 ≤ 7 ∧ bufL [33, 0, 0, 1, 1, 1, 1] 0 ≠ 0 ∧
    computeSimpleCRC (bufL [33, 0, 0, 1, 1, 1, 1]) 7 ≠ 0 :=
  ⟨by decide, by decide,
    claim_C6_crc_nonzero (bufL [33, 0, 0, 1, 1, 1, 1]) 7 (by decide) (by decide)⟩

/-- C7: for every variant and every input buffer, a decode returning 8 only
produces in-range fields — rp in [0,100], lc in [0,3], lt in [1,15], lf in
[1,3] for PollAndCommand; rh in [0,50], tp and tr in [0,199], al in [1,62]
for PollResponse — with the stored checksum byte equal to the checksum
freshly computed over bytes 0..6 of the same buffer, and the resulting
instance valid exactly when both decoded house-code bytes differ from 0xFF. -/
theorem claim_C7_decode_validation (a : CC1Alert) (p : CC1PollAndCommand)
    (r : CC1PollResponse) (buf : Nat → Nat) (buflen : Nat) :
    ((a.decodeSimple buf buflen).2 = 8 →
      buf 7 = computeSimpleCRC buf buflen ∧
      ((a.decodeSimple buf buflen).1.isValid = true ↔
        (buf 1 ≠ 0xff ∧ buf 2 ≠ 0xff))) ∧
    ((p.decodeSimple buf buflen).2 = 8 →
      (p.decodeSimple buf buflen).1.rp ≤ 100 ∧
      (p.decodeSimple buf buflen).1.lc ≤ 3 ∧
      1 ≤ (p.decodeSimple buf buflen).1.lt ∧
      (p.decodeSimple buf buflen).1.lt ≤ 15 ∧
      1 ≤ (p.decodeSimple buf buflen).1.lf ∧
      (p.decodeSimple buf buflen).1.lf ≤ 3 ∧
      buf 7 = computeSimpleCRC buf buflen ∧
      ((p.decodeSimple buf buflen).1.isValid = true ↔
        (buf 1 ≠ 0xff ∧ buf 2 ≠ 0xff))) ∧
    ((r.decodeSimple buf buflen).2 = 8 →
      (r.decodeSimple buf buflen).1.rh ≤ 50 ∧
      (r.decodeSimple buf buflen).1.tp ≤ 199 ∧
      (r.decodeSimple buf buflen).1.tr ≤ 199 ∧
      1 ≤ (r.decodeSimple buf buflen).1.al ∧
      (r.decodeSimple buf buflen).1.al ≤ 62 ∧
      buf 7 = computeSimpleCRC buf buflen ∧
      ((r.decodeSimple buf buflen).1.isValid = true ↔
        (buf 1 ≠ 0xff ∧ buf 2 ≠ 0xff))) := by
  refine ⟨fun h => ?_, fun h => ?_, fun h => ?_⟩
  · obtain ⟨hl, h0, h3, hcrc, hres⟩ := alert_decode_ret8 a buf buflen h
    refine ⟨hcrc.symm, ?_⟩
    rw [hres]
    simp [CC1Alert.isValid, CC1Alert.houseCodeIsValid]
  · obtain ⟨hl, h0, h5, hrp, hlt, hlf, hcrc, hres⟩ :=
      pac_decode_ret8 p buf buflen h
    have erp : (p.decodeSimple buf buflen).1.rp = (buf 3 + 255) % 256 := by
      rw [hres]
    have elc : (p.decodeSimple buf buflen).1.lc = Nat.land (buf 4) 3 := by
      rw [hres]
    have elt : (p.decodeSimple buf buflen).1.lt = Nat.land (buf 4 / 4) 0xf := by
      rw [hres]
    have elf : (p.decodeSimple buf buflen).1.lf = Nat.land (buf 4 / 64) 3 := by
      rw [hres]
    have ehv : (p.decodeSimple buf buflen).1.isValid
        = ((buf 1 != 0xff) && (buf 2 != 0xff)) := by rw [hres]; rfl
    have hlt2 : Nat.land (buf 4 / 4) 0xf ≤ 15 := Nat.and_le_right
    have hlf2 : Nat.land (buf 4 / 64) 3 ≤ 3 := Nat.and_le_right
    have hlc2 : Nat.land (buf 4) 3 ≤ 3 := Nat.and_le_right
    refine ⟨by omega, by omega, by omega, by omega, by omega, by omega,
      hcrc.symm, ?_⟩
    rw [ehv]
    simp
  · obtain ⟨hl, h0, hrh1, hrh2, htp, htr, hal1, hal2, hcrc, hres⟩ :=
      pr_decode_ret8 r buf buflen h
    have erh : (r.decodeSimple buf buflen).1.rh = Nat.land (buf 3) 0x3f - 1 := by
      rw [hres]
    have etp : (r.decodeSimple buf buflen).1.tp = (buf 4 + 255) % 256 := by
      rw [hres]
    have etr : (r.decodeSimple buf buflen).1.tr = (buf 5 + 255) % 256 := by
      rw [hres]
    have eal : (r.decodeSimple buf buflen).1.al = Nat.land (buf 6 / 2) 0x3f := by
      rw [hres]
    have ehv : (r.decodeSimple buf buflen).1.isValid
        = ((buf 1 != 0xff) && (buf 2 != 0xff)) := by rw [hres]; rfl
    have hal3 : Nat.land (buf 6 / 2) 0x3f ≤ 63 := Nat.and_le_right
    refine ⟨by omega, by omega, by omega, by omega, by omega, hcrc.symm, ?_⟩
    rw [ehv]
    simp

/-- Witness for C7 at three concrete successfully decoding frames, one per
variant: the unit-test alert, poll-and-command and poll-response frames. -/
theorem claim_C7_decode_validation_witness :
    ((CC1PollAndCommand.decodeSimple ⟨255, 0, 0, 0, 0, 0⟩
        (bufL [63, 10, 21, 2, 78, 1, 1, 92]) 8).1.rp ≤ 100 ∧
      (CC1PollAndCommand.decodeSimple ⟨255, 0, 0, 0, 0, 0⟩
        (bufL [63, 10, 21, 2, 78, 1, 1, 92]) 8).1.lc ≤ 3 ∧
      1 ≤ (CC1PollAndCommand.decodeSimple ⟨255, 0, 0, 0, 0, 0⟩
        (bufL [63, 10, 21, 2, 78, 1, 1, 92]) 8).1.lt ∧
      (CC1PollAndCommand.decodeSimple ⟨255, 0, 0, 0, 0, 0⟩
        (bufL [63, 10, 21, 2, 78, 1, 1, 92]) 8).1.lt ≤ 15 ∧
      1 ≤ (CC1PollAndCommand.decodeSimple ⟨255, 0, 0, 0, 0, 0⟩
        (bufL [63, 10, 21, 2, 78, 1, 1, 92]) 8).1.lf ∧
      (CC1PollAndCommand.decodeSimple ⟨255, 0, 0, 0, 0, 0⟩
        (bufL [63, 10, 21, 2, 78, 1, 1, 92]) 8).1.lf ≤ 3 ∧
      bufL [63, 10, 21, 2, 78, 1, 1, 92] 7 =
        computeSimpleCRC (bufL [63, 10, 21, 2, 78, 1, 1, 92]) 8 ∧
      ((CC1PollAndCommand.decodeSimple ⟨255, 0, 0, 0, 0, 0⟩
          (bufL [63, 10, 21, 2, 78, 1, 1, 92]) 8).1.isValid = true ↔
        (bufL [63, 10, 21, 2, 78, 1, 1, 92] 1 ≠ 0xff ∧
          bufL [63, 10, 21, 2, 78, 1, 1, 92] 2 ≠ 0xff))) ∧
    (bufL [33, 99, 99, 1, 1, 1, 1, 12] 7 =
        computeSimpleCRC (bufL [33, 99, 99, 1, 1, 1, 1, 12]) 8 ∧
      ((CC1Alert.decodeSimple ⟨255, 0⟩
          (bufL [33, 99, 99, 1, 1, 1, 1, 12]) 8).1.isValid = true ↔
        (bufL [33, 99, 99, 1, 1, 1, 1, 12] 1 ≠ 0xff ∧
          bufL [33, 99, 99, 1, 1, 1, 1, 12] 2 ≠ 0xff))) ∧
    ((CC1PollResponse.decodeSimple ⟨255, 0, 0, 0, 0, 0, false, false, false⟩
        (bufL [42, 10, 21, 110, 161, 102, 70, 1]) 8).1.rh ≤ 50 ∧
      (CC1PollResponse.decodeSimple ⟨255, 0, 0, 0, 0, 0, false, false, false⟩
        (bufL [42, 10, 21, 110, 161, 102, 70, 1]) 8).1.tp ≤ 199 ∧
      (CC1PollResponse.decodeSimple ⟨255, 0, 0, 0, 0, 0, false, false, false⟩
        (bufL [42, 10, 21, 110, 161, 102, 70, 1]) 8).1.tr ≤ 199 ∧
      1 ≤ (CC1PollResponse.decodeSimple ⟨255, 0, 0, 0, 0, 0, false, false, false⟩
        (bufL [42, 10, 21, 110, 161, 102, 70, 1]) 8).1.al ∧
      (CC1PollResponse.decodeSimple ⟨255, 0, 0, 0, 0, 0, false, false, false⟩
        (bufL [42, 10, 21, 110, 161, 102, 70, 1]) 8).1.al ≤ 62 ∧
      bufL [42, 10, 21, 110, 161, 102, 70, 1] 7 =
        computeSimpleCRC (bufL [42, 10, 21, 110, 161, 102, 70, 1]) 8 ∧
      ((CC1PollResponse.decodeSimple ⟨255, 0, 0, 0, 0, 0, false, false, false⟩
          (bufL [42, 10, 21, 110, 161, 102, 70, 1]) 8).1.isValid = true ↔
        (bufL [42, 10, 21, 110, 161, 102, 70, 1] 1 ≠ 0xff ∧
          bufL [42, 10, 21, 110, 161, 102, 70, 1] 2 ≠ 0xff))) :=
  ⟨(claim_C7_decode_validation ⟨255, 0⟩ ⟨255, 0, 0, 0, 0, 0⟩
      ⟨255, 0, 0, 0, 0, 0, false, false, false⟩
      (bufL [63, 10, 21, 2, 78, 1, 1, 92]) 8).2.1 (by decide),
    (claim_C7_decode_validation ⟨255, 0⟩ ⟨255, 0, 0, 0, 0, 0⟩
      ⟨255, 0, 0, 0, 0, 0, false, false, false⟩
      (bufL [33, 99, 99, 1, 1, 1, 1, 12]) 8).1 (by decide),
    (claim_C7_decode_validation ⟨255, 0⟩ ⟨255, 0, 0, 0, 0, 0⟩
      ⟨255, 0, 0, 0, 0, 0, false, false, false⟩
      (bufL [42, 10, 21, 110, 161, 102, 70, 1]) 8).2.2 (by decide)⟩

/-- C8: the poll-and-command factory clamps every field: the concrete call
with rp=150, lc=5, lt=0, lf=0 yields a valid instance with rp clamped to
100, lc masked to 1, lt and lf raised to 1; and in general rp is clamped to
[0,100], lc masked to [0,3], lt to [1,15] and lf to [1,3]. -/
theorem claim_C8_factory_clamping (hc1 hc2 : Nat)
    (h1 : hc1 ≠ 0xff) (h2 : hc2 ≠ 0xff) :
    (CC1PollAndCommand.make hc1 hc2 150 5 0 0).isValid = true ∧
    (CC1PollAndCommand.make hc1 hc2 150 5 0 0).getRP = 100 ∧
    (CC1PollAndCommand.make hc1 hc2 150 5 0 0).getLC = 1 ∧
    (CC1PollAndCommand.make hc1 hc2 150 5 0 0).getLT = 1 ∧
    (CC1PollAndCommand.make hc1 hc2 150 5 0 0).getLF = 1 ∧
    (∀ rp lc lt lf : Nat,
      (CC1PollAndCommand.make hc1 hc2 rp lc lt lf).getRP ≤ 100 ∧
      (CC1PollAndCommand.make hc1 hc2 rp lc lt lf).getLC ≤ 3 ∧
      1 ≤ (CC1PollAndCommand.make hc1 hc2 rp lc lt lf).getLT ∧
      (CC1PollAndCommand.make hc1 hc2 rp lc lt lf).getLT ≤ 15 ∧
      1 ≤ (CC1PollAndCommand.make hc1 hc2 rp lc lt lf).getLF ∧
      (CC1PollAndCommand.make hc1 hc2 rp lc lt lf).getLF ≤ 3) := by
  refine ⟨?_, by rfl, by rfl, by rfl, by rfl, fun rp lc lt lf => ?_⟩
  · simp [CC1PollAndCommand.make, CC1PollAndCommand.isValid,
      CC1PollAndCommand.houseCodeIsValid, h1, h2]
  · exact ⟨(constrain_mem rp 0 100 (by omega)).2, Nat.and_le_right,
      (constrain_mem lt 1 15 (by omega)).1, (constrain_mem lt 1 15 (by omega)).2,
      (constrain_mem lf 1 3 (by omega)).1, (constrain_mem lf 1 3 (by omega)).2⟩

/-- Witness for C8 at the house code 10/21, also instantiating the general
clamping part at the out-of-range inputs rp=200, lc=7, lt=0, lf=9. -/
theorem claim_C8_factory_clamping_witness :
    (CC1PollAndCommand.make 10 21 150 5 0 0).isValid = true ∧
    (CC1PollAndCommand.make 10 21 150 5 0 0).getRP = 100 ∧
    (CC1PollAndCommand.make 10 21 150 5 0 0).getLC = 1 ∧
    (CC1PollAndCommand.make 10 21 150 5 0 0).getLT = 1 ∧
    (CC1PollAndCommand.make 10 21 150 5 0 0).getLF = 1 ∧
    (CC1PollAndCommand.make 10 21 200 7 0 9).getRP ≤ 100 ∧
    (CC1PollAndCommand.make 10 21 200 7 0 9).getLF ≤ 3 :=
  have h := claim_C8_factory_clamping 10 21 (by decide) (by decide)
  ⟨h.1, h.2.1, h.2.2.1, h.2.2.2.1, h.2.2.2.2.1,
    (h.2.2.2.2.2 200 7 0 9).1, (h.2.2.2.2.2 200 7 0 9).2.2.2.2.2⟩

/-- C9: every decode requires the checksum byte to be present: a declared
buffer length below 8 — in particular exactly 7, checksum absent — makes all
three variants' decodes return 0, whatever the buffer contents. -/
theorem claim_C9_short_buffer (a : CC1Alert) (p : CC1PollAndCommand)
    (r : CC1PollResponse) (buf : Nat → Nat) (buflen : Nat) (h : buflen < 8) :
    (a.decodeSimple buf buflen).2 = 0 ∧
    (p.decodeSimple buf buflen).2 = 0 ∧
    (r.decodeSimple buf buflen).2 = 0 := by
  have hsane : decodeSimpleArgsSane buflen true = false := by
    simp [decodeSimpleArgsSane]
    omega
  refine ⟨?_, ?_, ?_⟩
  · simp [CC1Alert.decodeSimple, hsane]
  · simp [CC1PollAndCommand.decodeSimple, hsane]
  · simp [CC1PollResponse.decodeSimple, hsane]

/-- Witness for C9: a well-formed 7-byte alert frame without its checksum
byte is rejected by all three decodes at declared length 7. -/
theorem claim_C9_short_buffer_witness :
    (7 : Nat) < 8 ∧
    (CC1Alert.decodeSimple ⟨255, 0⟩ (bufL [33, 10, 21, 1, 1, 1, 1]) 7).2 = 0 ∧
    (CC1PollAndCommand.decodeSimple ⟨255, 0, 0, 0, 0, 0⟩
      (bufL [33, 10, 21, 1, 1, 1, 1]) 7).2 = 0 ∧
    (CC1PollResponse.decodeSimple ⟨255, 0, 0, 0, 0, 0, false, false, false⟩
      (bufL [33, 10, 21, 1, 1, 1, 1]) 7).2 = 0 :=
  have h := claim_C9_short_buffer ⟨255, 0⟩ ⟨255, 0, 0, 0, 0, 0⟩
    ⟨255, 0, 0, 0, 0, 0, false, false, false⟩
    (bufL [33, 10, 21, 1, 1, 1, 1]) 7 (by decide)
  ⟨by decide, h.1, h.2.1, h.2.2⟩

/-- C10: a successful encode writes exactly the returned number of leading
bytes for every variant: the return value is 7 without the CRC and 8 with
it, and every buffer byte at or beyond the returned count keeps the value it
had before the call. -/
theorem claim_C10_frame_effect (a : CC1Alert) (p : CC1PollAndCommand)
    (r : CC1PollResponse) (buf : Nat → Nat) (buflen : Nat) (includeCRC : Bool)
    (hlen : (if includeCRC then 8 else 7) ≤ buflen) :
    ((a.encodeSimple buf buflen includeCRC).2 =
      (if includeCRC then 8 else 7)) ∧
    (∀ i, (if includeCRC then 8 else 7) ≤ i →
      (a.encodeSimple buf buflen includeCRC).1 i = buf i) ∧
    ((p.encodeSimple buf buflen includeCRC).2 =
      (if includeCRC then 8 else 7)) ∧
    (∀ i, (if includeCRC then 8 else 7) ≤ i →
      (p.encodeSimple buf buflen includeCRC).1 i = buf i) ∧
    ((r.encodeSimple buf buflen includeCRC).2 =
      (if includeCRC then 8 else 7)) ∧
    (∀ i, (if includeCRC then 8 else 7) ≤ i →
      (r.encodeSimple buf buflen includeCRC).1 i = buf i) := by
  have hsane : encodeSimpleArgsSane buflen includeCRC = true := by
    simp [encodeSimpleArgsSane]
    cases includeCRC <;> simpa using hlen
  cases includeCRC with
  | false =>
    refine ⟨?_, ?_, ?_, ?_, ?_, ?_⟩
    · simp [CC1Alert.encodeSimple, hsane]
    · intro i hi
      simp at hi
      have h0 : i ≠ 0 := by omega
      have h1 : i ≠ 1 := by omega
      have h2 : i ≠ 2 := by omega
      have h3 : i ≠ 3 := by omega
      have h4 : i ≠ 4 := by omega
      have h5 : i ≠ 5 := by omega
      have h6 : i ≠ 6 := by omega
      simp [CC1Alert.encodeSimple, hsane, setB_ne _ 6 _ i h6,
        setB_ne _ 5 _ i h5, setB_ne _ 4 _ i h4, setB_ne _ 3 _ i h3,
        setB_ne _ 2 _ i h2, setB_ne _ 1 _ i h1, setB_ne _ 0 _ i h0]
    · simp [CC1PollAndCommand.encodeSimple, hsane]
    · intro i hi
      simp at hi
      have h0 : i ≠ 0 := by omega
      have h1 : i ≠ 1 := by omega
      have h2 : i ≠ 2 := by omega
      have h3 : i ≠ 3 := by omega
      have h4 : i ≠ 4 := by omega
      have h5 : i ≠ 5 := by omega
      have h6 : i ≠ 6 := by omega
      simp [CC1PollAndCommand.encodeSimple, hsane, setB_ne _ 6 _ i h6,
        setB_ne _ 5 _ i h5, setB_ne _ 4 _ i h4, setB_ne _ 3 _ i h3,
        setB_ne _ 2 _ i h2, setB_ne _ 1 _ i h1, setB_ne _ 0 _ i h0]
    · simp [CC1PollResponse.encodeSimple, hsane]
    · intro i hi
      simp at hi
      have h0 : i ≠ 0 := by omega
      have h1 : i ≠ 1 := by omega
      have h2 : i ≠ 2 := by omega
      have h3 : i ≠ 3 := by omega
      have h4 : i ≠ 4 := by omega
      have h5 : i ≠ 5 := by omega
      have h6 : i ≠ 6 := by omega
      simp [CC1PollResponse.encodeSimple, hsane, setB_ne _ 6 _ i h6,
        setB_ne _ 5 _ i h5, setB_ne _ 4 _ i h4, setB_ne _ 3 _ i h3,
        setB_ne _ 2 _ i h2, setB_ne _ 1 _ i h1, setB_ne _ 0 _ i h0]
  | true =>
    refine ⟨?_, ?_, ?_, ?_, ?_, ?_⟩
    · simp [CC1Alert.encodeSimple, hsane]
    · intro i hi
      simp at hi
      have h0 : i ≠ 0 := by omega
      have h1 : i ≠ 1 := by omega
      have h2 : i ≠ 2 := by omega
      have h3 : i ≠ 3 := by omega
      have h4 : i ≠ 4 := by omega
      have h5 : i ≠ 5 := by omega
      have h6 : i ≠ 6 := by omega
      have h7 : i ≠ 7 := by omega
      simp [CC1Alert.encodeSimple, hsane, setB_ne _ 7 _ i h7,
        setB_ne _ 6 _ i h6, setB_ne _ 5 _ i h5, setB_ne _ 4 _ i h4,
        setB_ne _ 3 _ i h3, setB_ne _ 2 _ i h2, setB_ne _ 1 _ i h1,
        setB_ne _ 0 _ i h0]
    · simp [CC1PollAndCommand.encodeSimple, hsane]
    · intro i hi
      simp at hi
      have h0 : i ≠ 0 := by omega
      have h1 : i ≠ 1 := by omega
      have h2 : i ≠ 2 := by omega
      have h3 : i ≠ 3 := by omega
      have h4 : i ≠ 4 := by omega
      have h5 : i ≠ 5 := by omega
      have h6 : i ≠ 6 := by omega
      have h7 : i ≠ 7 := by omega
      simp [CC1PollAndCommand.encodeSimple, hsane, setB_ne _ 7 _ i h7,
        setB_ne _ 6 _ i h6, setB_ne _ 5 _ i h5, setB_ne _ 4 _ i h4,
        setB_ne _ 3 _ i h3, setB_ne _ 2 _ i h2, setB_ne _ 1 _ i h1,
        setB_ne _ 0 _ i h0]
    · simp [CC1PollResponse.encodeSimple, hsane]
    · intro i hi
      simp at hi
      have h0 : i ≠ 0 := by omega
      have h1 : i ≠ 1 := by omega
      have h2 : i ≠ 2 := by omega
      have h3 : i ≠ 3 := by omega
      have h4 : i ≠ 4 := by omega
      have h5 : i ≠ 5 := by omega
      have h6 : i ≠ 6 := by omega
      have h7 : i ≠ 7 := by omega
      simp [CC1PollResponse.encodeSimple, hsane, setB_ne _ 7 _ i h7,
        setB_ne _ 6 _ i h6, setB_ne _ 5 _ i h5, setB_ne _ 4 _ i h4,
        setB_ne _ 3 _ i h3, setB_ne _ 2 _ i h2, setB_ne _ 1 _ i h1,
        setB_ne _ 0 _ i h0]

/-- Witness for C10: encoding an alert without CRC into a length-7 buffer
returns 7 and leaves byte 7 untouched; with CRC into a length-8 buffer it
returns 8 and leaves byte 8 untouched, for all variants. -/
theorem claim_C10_frame_effect_witness :
    ((CC1Alert.make 10 21).encodeSimple (bufL [9, 9, 9, 9, 9, 9, 9, 9, 9])
      9 false).2 = 7 ∧
    ((CC1Alert.make 10 21).encodeSimple (bufL [9, 9, 9, 9, 9, 9, 9, 9, 9])
      9 false).1 7 = bufL [9, 9, 9, 9, 9, 9, 9, 9, 9] 7 ∧
    ((CC1PollAndCommand.make 10 21 1 2 3 1).encodeSimple
      (bufL [9, 9, 9, 9, 9, 9, 9, 9, 9]) 9 true).2 = 8 ∧
    ((CC1PollAndCommand.make 10 21 1 2 3 1).encodeSimple
      (bufL [9, 9, 9, 9, 9, 9, 9, 9, 9]) 9 true).1 8 =
      bufL [9, 9, 9, 9, 9, 9, 9, 9, 9] 8 :=
  have hf := claim_C10_frame_effect (CC1Alert.make 10 21)
    (CC1PollAndCommand.make 10 21 1 2 3 1)
    (CC1PollResponse.make 10 21 45 160 101 35 true false false)
    (bufL [9, 9, 9, 9, 9, 9, 9, 9, 9]) 9 false (by decide)
  have ht := claim_C10_frame_effect (CC1Alert.make 10 21)
    (CC1PollAndCommand.make 10 21 1 2 3 1)
    (CC1PollResponse.make 10 21 45 160 101 35 true false false)
    (bufL [9, 9, 9, 9, 9, 9, 9, 9, 9]) 9 true (by decide)
  ⟨hf.1, hf.2.1 7 (by decide), ht.2.2.1, ht.2.2.2.1 8 (by decide)⟩

end OTProtocolCC
